import Mathlib

/-!
Verification of the temporal reconciliation and breakdown-merge engine of the
l2beat backend (`DetailedTvlController` and its helpers).

Shallow embedding conventions:
  * string identifiers (`ProjectId`, `AssetId`, `valueType`) are Lean `String`s;
  * Unix timestamps are `Nat`; monetary / asset amounts are `Int`;
  * the storage collaborators (`AggregatedReportStatusRepository`,
    `AggregatedReportRepository`, `ReportRepository`, ...) are pure inputs:
    each controller operation receives the rows the repositories would have
    returned, and — where a claim is about how many storage queries are
    issued — returns the number of storage-collaborator queries it issued
    alongside its result.
-/

/-- Counts returned by `AggregatedReportStatusRepository.findCountsForHash`:
how many aggregated rows match the configuration fingerprint and how many
differ from it. -/
structure FingerprintCounts where
  matching : Nat
  different : Nat
deriving DecidableEq

/-- The record built by `DetailedTvlController.getDataTimings`. -/
structure DataTimings where
  syncedReportsAmount : Nat
  unsyncedReportsAmount : Nat
  isSynced : Bool
  latestTimestamp : Option Nat
deriving DecidableEq

/-- Embedding of `DetailedTvlController.getDataTimings`: the two repository
reads (`findCountsForHash` and `findLatestTimestamp`) are inputs, and
`isSynced` is `unsyncedReportsAmount === 0`. -/
def getDataTimings (counts : FingerprintCounts) (latestTimestamp : Option Nat) :
    DataTimings :=
  { syncedReportsAmount := counts.matching
    unsyncedReportsAmount := counts.different
    isSynced := counts.different == 0
    latestTimestamp := latestTimestamp }

/-- What the status repository would answer: the fingerprint counts together
with the latest aggregated timestamp (`none` when no row exists). -/
structure StatusEnv where
  counts : FingerprintCounts
  latestTimestamp : Option Nat
deriving DecidableEq

/-- Modelled from the spec: a `Resolution` (hourly / six-hourly / daily) is a
configuration constant carrying a fixed step size and a retention window
defining the oldest timestamp still requested (the unbounded daily case is the
window exceeding the latest timestamp, which clamps the minimum to 0). The
concrete values live in `getHourlyMinTimestamp` / `getSixHourlyMinTimestamp`,
which are not part of the sources; the spec says to treat them as injected
configuration. -/
structure Resolution where
  step : Nat
  window : Nat
deriving DecidableEq

/-- Modelled from the spec: minimum timestamp of a resolution's window,
`latestTimestamp - resolution.window` clamped to 0 (Nat subtraction). -/
def minTimestamp (r : Resolution) (latest : Nat) : Nat :=
  latest - r.window

/-- Modelled from the spec: number of slots of a filled series,
`floor((max - min) / step) + 1`. -/
def slotCount (r : Resolution) (latest : Nat) : Nat :=
  (latest - minTimestamp r latest) / r.step + 1

/-- Modelled from the spec: the expected slot timestamps of a resolution,
from the minimum timestamp up to the latest, stepping by `step`. -/
def slots (r : Resolution) (latest : Nat) : List Nat :=
  (List.range (slotCount r latest)).map fun i => minTimestamp r latest + i * r.step

/-- An aggregated (project-level or synthetic-rollup) report row.  Modelled
from the spec data model; it carries the two numeric fields that flow into
chart rows (asset amount and usd value), both zeroed by gap-fill
placeholders. -/
structure AggregatedReport where
  projectId : String
  valueType : String
  timestamp : Nat
  assetValue : Int
  usdValue : Int
deriving DecidableEq

/-- One entry of a `FilledSeries` / chart row: (timestamp, asset amount,
usd value). -/
structure SeriesEntry where
  timestamp : Nat
  assetAmount : Int
  usdValue : Int
deriving DecidableEq

/-- Modelled from the spec: the GapFiller for one key and one resolution
(the per-resolution body of `fillAllMissingAggregatedReports`, which is not
part of the sources).  For each expected slot it sums the rows of that key
mapped to the slot (never arbitrarily picking one), and a slot with no
matching row becomes a placeholder with every numeric field zero (the empty
sum); rows outside the slot range are discarded. -/
def fillSeries (r : Resolution) (k : String) (rows : List AggregatedReport)
    (latest : Nat) : List SeriesEntry :=
  (slots r latest).map fun t =>
    let matching := rows.filter fun row => row.projectId == k && row.timestamp == t
    { timestamp := t
      assetAmount := (matching.map AggregatedReport.assetValue).sum
      usdValue := (matching.map AggregatedReport.usdValue).sum }

/-- Modelled from the spec: the GapFiller applied to every expected key for
one resolution, producing the mapping key -> FilledSeries. -/
def fillAllMissingForResolution (keys : List String) (r : Resolution)
    (rows : List AggregatedReport) (latest : Nat) :
    List (String × List SeriesEntry) :=
  keys.map fun k => (k, fillSeries r k rows latest)

/-- The three per-resolution configuration constants used by one controller
request. -/
structure ResolutionConfig where
  hourly : Resolution
  sixHourly : Resolution
  daily : Resolution
deriving DecidableEq

/-- The three row lists handed to `fillAllMissingAggregatedReports`. -/
structure ReportsByResolution where
  hourly : List AggregatedReport
  sixHourly : List AggregatedReport
  daily : List AggregatedReport
deriving DecidableEq

/-- The result record of `fillAllMissingAggregatedReports`. -/
structure FilledReports where
  filledHourlyReports : List (String × List SeriesEntry)
  filledSixHourlyReports : List (String × List SeriesEntry)
  filledDailyReports : List (String × List SeriesEntry)
deriving DecidableEq

/-- Modelled from the spec: `fillAllMissingAggregatedReports` (imported from
`./timerange`, not part of the sources) gap-fills the three resolutions for
every key to seek for, up to the latest timestamp. -/
def fillAllMissingAggregatedReports (keys : List String) (cfg : ResolutionConfig)
    (reports : ReportsByResolution) (latest : Nat) : FilledReports :=
  { filledHourlyReports :=
      fillAllMissingForResolution keys cfg.hourly reports.hourly latest
    filledSixHourlyReports :=
      fillAllMissingForResolution keys cfg.sixHourly reports.sixHourly latest
    filledDailyReports :=
      fillAllMissingForResolution keys cfg.daily reports.daily latest }

/-- A raw per-asset report row: (projectId, chainId, assetId, valueType,
timestamp, asset amount, usd value). -/
structure Report where
  projectId : String
  chainId : Nat
  assetId : String
  valueType : String
  timestamp : Nat
  valueAsset : Int
  valueUsd : Int
deriving DecidableEq

/-- Modelled from the spec: the value-type deduplication performed on the
Grouper's output (`@see getProjectTokensCharts`, not part of the sources):
multiple Reports at the same (key, timestamp) coming from different
valueTypes are reduced by summation into a single (asset amount, usd value)
pair. -/
def dedupeReports (rows : List Report) : Int × Int :=
  ((rows.map Report.valueAsset).sum, (rows.map Report.valueUsd).sum)

/-- Keys of a list in insertion order of first occurrence. -/
def firstOccurrences (l : List String) : List String :=
  l.foldl (fun acc x => if x ∈ acc then acc else acc ++ [x]) []

/-- Modelled from the spec: `groupByProjectIdAndAssetType` (imported from
`./detailedTvl`, not part of the sources) reshapes a flat row list into
ProjectID => Asset => Report[], grouping keys in insertion order of first
occurrence, losing no rows. -/
def groupByProjectIdAndAssetType (rows : List Report) :
    List (String × List (String × List Report)) :=
  (firstOccurrences (rows.map Report.projectId)).map fun pid =>
    let prows := rows.filter fun r => r.projectId == pid
    (pid, (firstOccurrences (prows.map Report.assetId)).map fun aid =>
      (aid, prows.filter fun r => r.assetId == aid))

/-- A configured token (`Token` of `@l2beat/shared-pure`): the fields the
controller reads. -/
structure Token where
  id : String
  symbol : String
  decimals : Nat
deriving DecidableEq

/-- A configured project (`ReportProject`): the field the controller reads. -/
structure ReportProject where
  projectId : String
deriving DecidableEq

/-- The synthetic rollup identifier `ProjectId.ALL`. -/
def ProjectId.ALL : String := "all"

/-- The synthetic rollup identifier `ProjectId.BRIDGES`. -/
def ProjectId.BRIDGES : String := "bridges"

/-- The synthetic rollup identifier `ProjectId.LAYER2S`. -/
def ProjectId.LAYER2S : String := "layer2s"

/-- Embedding of the `allProjectIdsToSeekFor` list built inside
`getDetailedTvlApiResponse`: every configured project id plus the three
synthetic rollup ids. -/
def allProjectIdsToSeekFor (projects : List ReportProject) : List String :=
  projects.map ReportProject.projectId ++
    [ProjectId.ALL, ProjectId.BRIDGES, ProjectId.LAYER2S]

/-- One project's slice of the detailed TVL response: the three filled charts
plus the deduplicated latest per-asset snapshot. -/
structure ProjectCharts where
  hourly : List SeriesEntry
  sixHourly : List SeriesEntry
  daily : List SeriesEntry
  latest : List (String × (Int × Int))
deriving DecidableEq

/-- Association-list lookup of a key's filled series, empty when absent. -/
def lookupSeries (m : List (String × List SeriesEntry)) (pid : String) :
    List SeriesEntry :=
  match m.find? fun kv => kv.1 == pid with
  | some kv => kv.2
  | none => []

/-- Association-list lookup of a key's grouped latest reports, empty when
absent. -/
def lookupAssetGroups (m : List (String × List (String × List Report)))
    (pid : String) : List (String × List Report) :=
  match m.find? fun kv => kv.1 == pid with
  | some kv => kv.2
  | none => []

/-- Modelled from the spec: `generateDetailedTvlApiResponse` (imported from
`./generateDetailedTvlApiResponse`, not part of the sources) assembles one
chart triple per requested project id from the filled, grouped resolutions,
and reduces the latest snapshot's per-asset rows with the value-type
deduplication; a project absent from `projectIds` is never included. -/
def generateDetailedTvlApiResponse
    (groupedHourlyReports groupedSixHourlyReports groupedDailyReports :
      List (String × List SeriesEntry))
    (groupedLatestReports : List (String × List (String × List Report)))
    (projectIds : List String) : List (String × ProjectCharts) :=
  projectIds.map fun pid =>
    (pid,
      { hourly := lookupSeries groupedHourlyReports pid
        sixHourly := lookupSeries groupedSixHourlyReports pid
        daily := lookupSeries groupedDailyReports pid
        latest := (lookupAssetGroups groupedLatestReports pid).map fun av =>
          (av.1, dedupeReports av.2) })

/-- The error codes of the controller's result discriminants. -/
inductive TvlError where
  | DATA_NOT_FULLY_SYNCED : TvlError
  | NO_DATA : TvlError
  | INVALID_PROJECT_OR_ASSET : TvlError
deriving DecidableEq

/-- The `{result: 'success', data} | {result: 'error', error}` discriminated
result shape. -/
inductive ApiResult (α : Type) where
  | success (data : α) : ApiResult α
  | error (e : TvlError) : ApiResult α
deriving DecidableEq

/-- The controller options record. -/
structure DetailedTvlControllerOptions where
  errorOnUnsyncedDetailedTvl : Bool
deriving DecidableEq

/-- The rows the aggregated-report and report repositories would return to
`getDetailedTvlApiResponse`. -/
structure TvlData where
  hourlyReports : List AggregatedReport
  sixHourlyReports : List AggregatedReport
  dailyReports : List AggregatedReport
  latestReports : List Report
deriving DecidableEq

/-- Embedding of `DetailedTvlController.getDetailedTvlApiResponse`: resolve
the data timings; `NO_DATA` when no latest timestamp exists; then
`DATA_NOT_FULLY_SYNCED` when unsynced and the option forbids partial data;
otherwise fill the three resolutions for every project id to seek for
(including the synthetic rollup ids), group the latest reports, and generate
the response for the configured project ids only. -/
def getDetailedTvlApiResponse (projects : List ReportProject)
    (options : DetailedTvlControllerOptions) (cfg : ResolutionConfig)
    (status : StatusEnv) (env : TvlData) :
    ApiResult (List (String × ProjectCharts)) :=
  let dataTimings := getDataTimings status.counts status.latestTimestamp
  match dataTimings.latestTimestamp with
  | none => .error .NO_DATA
  | some latestTimestamp =>
    if !dataTimings.isSynced && options.errorOnUnsyncedDetailedTvl then
      .error .DATA_NOT_FULLY_SYNCED
    else
      let seekIds := allProjectIdsToSeekFor projects
      let filled := fillAllMissingAggregatedReports seekIds cfg
        { hourly := env.hourlyReports
          sixHourly := env.sixHourlyReports
          daily := env.dailyReports } latestTimestamp
      let groupedLatestReports := groupByProjectIdAndAssetType env.latestReports
      .success (generateDetailedTvlApiResponse
        filled.filledHourlyReports
        filled.filledSixHourlyReports
        filled.filledDailyReports
        groupedLatestReports
        (projects.map ReportProject.projectId))

/-- A chart of the per-asset variant: column labels and rows. -/
structure TvlApiChart where
  types : List String
  data : List SeriesEntry
deriving DecidableEq

/-- The `TvlApiCharts` triple of the per-asset variant. -/
structure TvlApiCharts where
  hourly : TvlApiChart
  sixHourly : TvlApiChart
  daily : TvlApiChart
deriving DecidableEq

/-- Modelled from the spec: the per-asset GapFiller
(`fillAllMissingAssetReports`, imported from `./timerange`, not part of the
sources).  The repository rows are already scoped to one
(project, chain, asset, valueType) tuple, so a slot matches on timestamp
alone; same gap-fill contract as the aggregated variant. -/
def fillAssetSeries (r : Resolution) (rows : List Report) (latest : Nat) :
    List SeriesEntry :=
  (slots r latest).map fun t =>
    let matching := rows.filter fun row => row.timestamp == t
    { timestamp := t
      assetAmount := (matching.map Report.valueAsset).sum
      usdValue := (matching.map Report.valueUsd).sum }

/-- The rows the report repository would return to
`getDetailedAssetTvlApiResponse` for the three resolutions. -/
structure AssetData where
  hourlyReports : List Report
  sixHourlyReports : List Report
  dailyReports : List Report
deriving DecidableEq

/-- Embedding of `DetailedTvlController.getDetailedAssetTvlApiResponse`.
Validation of the asset (against the token list) and the project (against
the project list) happens first and touches no repository; then the data
timings (two status-repository queries), then the three per-resolution report
fetches.  The second component counts the storage-collaborator queries
issued: 0 on validation failure, 2 when the timings end the request, 5 on
success. -/
def getDetailedAssetTvlApiResponse (tokens : List Token)
    (projects : List ReportProject) (options : DetailedTvlControllerOptions)
    (cfg : ResolutionConfig) (status : StatusEnv) (env : AssetData)
    (projectId : String) (chainId : Nat) (assetId : String)
    (assetType : String) : ApiResult TvlApiCharts × Nat :=
  let asset := tokens.find? fun t => t.id == assetId
  let project := projects.find? fun p => p.projectId == projectId
  match asset, project with
  | some asset, some _project =>
    let timings := getDataTimings status.counts status.latestTimestamp
    match timings.latestTimestamp with
    | none => (.error .NO_DATA, 2)
    | some latestTimestamp =>
      if !timings.isSynced && options.errorOnUnsyncedDetailedTvl then
        (.error .DATA_NOT_FULLY_SYNCED, 2)
      else
        let types := ["timestamp", asset.symbol.toLower, "usd"]
        (.success
          { hourly :=
              { types := types
                data := fillAssetSeries cfg.hourly env.hourlyReports
                  latestTimestamp }
            sixHourly :=
              { types := types
                data := fillAssetSeries cfg.sixHourly env.sixHourlyReports
                  latestTimestamp }
            daily :=
              { types := types
                data := fillAssetSeries cfg.daily env.dailyReports
                  latestTimestamp } }, 5)
  | _, _ => (.error .INVALID_PROJECT_OR_ASSET, 0)

/-- One asset line of a per-project breakdown. -/
structure BreakdownEntry where
  assetId : String
  amount : Int
  usdValue : Int
deriving DecidableEq

/-- The three per-category breakdown lists of one project. -/
structure ProjectBreakdown where
  external : List BreakdownEntry
  native : List BreakdownEntry
  canonical : List BreakdownEntry
deriving DecidableEq

/-- The three per-category breakdown sources handed to the merger, each a
mapping projectId -> entries. -/
structure BreakdownSources where
  external : List (String × List BreakdownEntry)
  native : List (String × List BreakdownEntry)
  canonical : List (String × List BreakdownEntry)
deriving DecidableEq

/-- Association-list lookup of a project's category entries, empty when the
project is absent from the category. -/
def lookupBreakdown (m : List (String × List BreakdownEntry)) (pid : String) :
    List BreakdownEntry :=
  match m.find? fun kv => kv.1 == pid with
  | some kv => kv.2
  | none => []

/-- Modelled from the spec: `groupAndMergeBreakdowns` (imported from
`./detailedTvl`, not part of the sources) assembles, for each project of the
input list, a single record with the project's three category
sub-breakdowns, emitting empty lists (never a missing key, never an error)
for a category the project is absent from, and inventing no project absent
from the list. -/
def groupAndMergeBreakdowns (projects : List ReportProject)
    (sources : BreakdownSources) : List (String × ProjectBreakdown) :=
  projects.map fun p =>
    (p.projectId,
      { external := lookupBreakdown sources.external p.projectId
        native := lookupBreakdown sources.native p.projectId
        canonical := lookupBreakdown sources.canonical p.projectId })

/-- Modelled from the spec: `getNonCanonicalAssetsBreakdown` (imported from
`./detailedTvl`, not part of the sources) computes the per-project breakdown
of one non-canonical category: the latest reports filtered by the category's
valueType, grouped by project in insertion order. -/
def getNonCanonicalAssetsBreakdown (reports : List Report)
    (_tokens : List Token) (valueType : String) :
    List (String × List BreakdownEntry) :=
  let filtered := reports.filter fun r => r.valueType == valueType
  (firstOccurrences (filtered.map Report.projectId)).map fun pid =>
    (pid, (filtered.filter fun r => r.projectId == pid).map fun r =>
      { assetId := r.assetId, amount := r.valueAsset, usdValue := r.valueUsd })

/-- The `ProjectAssetsBreakdownApiResponse` shape. -/
structure ProjectAssetsBreakdownApiResponse where
  dataTimestamp : Nat
  breakdowns : List (String × ProjectBreakdown)
deriving DecidableEq

/-- The data the repositories would return to
`getProjectTokenBreakdownApiResponse`: the latest reports, and the canonical
breakdown that `getCanonicalAssetsBreakdown` computes from balances × prices
(live valuation, external to this core per the spec). -/
structure BreakdownData where
  latestReports : List Report
  canonicalAssetsBreakdown : List (String × List BreakdownEntry)
deriving DecidableEq

/-- Embedding of `DetailedTvlController.getProjectTokenBreakdownApiResponse`:
resolve the data timings; `NO_DATA` when no latest timestamp exists; then
`DATA_NOT_FULLY_SYNCED` when unsynced and the option forbids partial data;
otherwise compute the external (EBV) and native (NMV) breakdowns from the
latest reports, and merge them with the canonical breakdown over the
configured projects. -/
def getProjectTokenBreakdownApiResponse (projects : List ReportProject)
    (tokens : List Token) (options : DetailedTvlControllerOptions)
    (status : StatusEnv) (env : BreakdownData) :
    ApiResult ProjectAssetsBreakdownApiResponse :=
  let timings := getDataTimings status.counts status.latestTimestamp
  match timings.latestTimestamp with
  | none => .error .NO_DATA
  | some latestTimestamp =>
    if !timings.isSynced && options.errorOnUnsyncedDetailedTvl then
      .error .DATA_NOT_FULLY_SYNCED
    else
      let externalAssetsBreakdown :=
        getNonCanonicalAssetsBreakdown env.latestReports tokens "EBV"
      let nativeAssetsBreakdown :=
        getNonCanonicalAssetsBreakdown env.latestReports tokens "NMV"
      let breakdowns := groupAndMergeBreakdowns projects
        { external := externalAssetsBreakdown
          native := nativeAssetsBreakdown
          canonical := env.canonicalAssetsBreakdown }
      .success { dataTimestamp := latestTimestamp, breakdowns := breakdowns }

/-- A concrete token list used by concrete instantiations. -/
def tokensEx : List Token := [{ id := "tok-a", symbol := "ABC", decimals := 18 }]

/-- A concrete project list used by concrete instantiations. -/
def projectsEx : List ReportProject := [{ projectId := "proj-p" }]

/-- A concrete resolution configuration used by concrete instantiations. -/
def cfgEx : ResolutionConfig :=
  { hourly := { step := 1, window := 2 }
    sixHourly := { step := 6, window := 12 }
    daily := { step := 24, window := 2000 } }

/-- A concrete hourly resolution used by concrete instantiations. -/
def resEx : Resolution := { step := 1, window := 2 }

/-- A concrete status answer: five matching rows, two mismatched rows,
latest timestamp 1000. -/
def statusUnsyncedEx : StatusEnv :=
  { counts := { matching := 5, different := 2 }, latestTimestamp := some 1000 }

/-- A concrete status answer: no aggregated row exists at all. -/
def statusNoDataEx : StatusEnv :=
  { counts := { matching := 0, different := 0 }, latestTimestamp := none }

/-- A concrete aggregated row at timestamp 999. -/
def aggRowEx : AggregatedReport :=
  { projectId := "proj-p", valueType := "CBV", timestamp := 999,
    assetValue := 7, usdValue := 50 }

/-- Concrete empty repository answers for the TVL operation. -/
def tvlDataEx : TvlData :=
  { hourlyReports := [], sixHourlyReports := [], dailyReports := [],
    latestReports := [] }

/-- Concrete empty repository answers for the per-asset operation. -/
def assetDataEx : AssetData :=
  { hourlyReports := [], sixHourlyReports := [], dailyReports := [] }

/-- Concrete empty repository answers for the breakdown operation. -/
def bdDataEx : BreakdownData :=
  { latestReports := [], canonicalAssetsBreakdown := [] }

/-- Scenario B row: value type CBV, usd 30, at (P, A, 1000). -/
def reportCBV : Report :=
  { projectId := "P", chainId := 1, assetId := "A", valueType := "CBV",
    timestamp := 1000, valueAsset := 3, valueUsd := 30 }

/-- Scenario B row: value type EBV, usd 20, at (P, A, 1000). -/
def reportEBV : Report :=
  { projectId := "P", chainId := 1, assetId := "A", valueType := "EBV",
    timestamp := 1000, valueAsset := 2, valueUsd := 20 }

/-- Scenario E sources: the project appears only in the native category. -/
def srcsEx : BreakdownSources :=
  { external := []
    native := [("proj-p", [{ assetId := "tok-a", amount := 1, usdValue := 10 }])]
    canonical := [] }

/-- C1: isSynced is exactly "the count of rows whose fingerprint differs is
zero"; the matching count plays no role. -/
theorem isSynced_iff_mismatch_zero (c : FingerprintCounts) (lt : Option Nat) :
    ((getDataTimings c lt).isSynced = true ↔ c.different = 0) ∧
    (∀ m : Nat,
      (getDataTimings ⟨m, c.different⟩ lt).isSynced =
        (getDataTimings c lt).isSynced) := by
  constructor
  · simp [getDataTimings]
  · intro m
    rfl

/-- C2 counterexample: when no aggregated row exists at all (both fingerprint
counts are zero and no latest timestamp exists), `getDataTimings` reports
`isSynced = true`, not `false` as the claim states. -/
theorem getDataTimings_no_rows_counterexample :
    (getDataTimings ⟨0, 0⟩ none).latestTimestamp = none ∧
    (getDataTimings ⟨0, 0⟩ none).isSynced = true := by
  constructor
  · rfl
  · rfl

/-- C2 amended: with no rows at all the resolution returns
`{latestTimestamp := none, isSynced := true}` (an empty table has zero
mismatches), and `isSynced` never depends on `latestTimestamp`, so it can be
`true` while `latestTimestamp` is undefined. -/
theorem getDataTimings_no_rows_amended :
    (getDataTimings ⟨0, 0⟩ none =
      { syncedReportsAmount := 0, unsyncedReportsAmount := 0,
        isSynced := true, latestTimestamp := none }) ∧
    (∀ (c : FingerprintCounts) (lt lt' : Option Nat),
      (getDataTimings c lt).isSynced = (getDataTimings c lt').isSynced) := by
  exact ⟨rfl, fun c lt lt' => rfl⟩

/-- The slot timestamps of a resolution are strictly ascending when the step
is positive. -/
theorem slots_pairwise_lt (r : Resolution) (latest : Nat) (h : 0 < r.step) :
    (slots r latest).Pairwise (· < ·) := by
  unfold slots
  refine List.Pairwise.map _ (fun a b hab => ?_) (List.pairwise_lt_range _)
  exact Nat.add_lt_add_left (Nat.mul_lt_mul_of_pos_right hab h) _

/-- The timestamps of a filled series are exactly the expected slots. -/
theorem fillSeries_timestamps (r : Resolution) (k : String)
    (rows : List AggregatedReport) (latest : Nat) :
    (fillSeries r k rows latest).map SeriesEntry.timestamp = slots r latest := by
  simp [fillSeries, List.map_map, Function.comp_def]

/-- C3: for every resolution, every requested key and every latest timestamp,
the gap filler produces a series of exactly
`floor((latest - minTimestamp) / step) + 1` entries, with strictly ascending
(hence duplicate-free) timestamps, where every slot with no matching source
row carries a placeholder whose asset amount and usd value are exactly
zero. -/
theorem filled_series_invariants (r : Resolution) (keys : List String)
    (rows : List AggregatedReport) (latest : Nat) (hstep : 0 < r.step) :
    ∀ kv ∈ fillAllMissingForResolution keys r rows latest,
      kv.2.length = (latest - minTimestamp r latest) / r.step + 1 ∧
      (kv.2.map SeriesEntry.timestamp).Pairwise (· < ·) ∧
      (kv.2.map SeriesEntry.timestamp).Nodup ∧
      ∀ e ∈ kv.2,
        (∀ row ∈ rows, ¬(row.projectId = kv.1 ∧ row.timestamp = e.timestamp)) →
        e.assetAmount = 0 ∧ e.usdValue = 0 := by
  intro kv hkv
  obtain ⟨k, hk, rfl⟩ := List.mem_map.mp hkv
  have hpw : ((fillSeries r k rows latest).map SeriesEntry.timestamp).Pairwise
      (· < ·) := by
    rw [fillSeries_timestamps]
    exact slots_pairwise_lt r latest hstep
  refine ⟨?_, hpw, hpw.imp Nat.ne_of_lt, ?_⟩
  · simp [fillSeries, slots, slotCount]
  · intro e he hnone
    obtain ⟨t, ht, rfl⟩ := List.mem_map.mp he
    have hfil :
        (rows.filter fun row => row.projectId == k && row.timestamp == t) =
          [] := by
      refine List.filter_eq_nil_iff.mpr fun row hrow => ?_
      have h1 := hnone row hrow
      simp only [Bool.and_eq_true, beq_iff_eq]
      intro hcon
      exact h1 ⟨hcon.1, hcon.2⟩
    constructor <;> simp [hfil]

/-- C3 witness: the invariants instantiated at the concrete hourly resolution
(step 1, window 2), one key, one source row at 999, latest timestamp 1000. -/
theorem filled_series_invariants_witness :
    0 < resEx.step ∧
    ∀ kv ∈ fillAllMissingForResolution ["proj-p"] resEx [aggRowEx] 1000,
      kv.2.length = (1000 - minTimestamp resEx 1000) / resEx.step + 1 ∧
      (kv.2.map SeriesEntry.timestamp).Pairwise (· < ·) ∧
      (kv.2.map SeriesEntry.timestamp).Nodup ∧
      ∀ e ∈ kv.2,
        (∀ row ∈ [aggRowEx], ¬(row.projectId = kv.1 ∧ row.timestamp = e.timestamp)) →
        e.assetAmount = 0 ∧ e.usdValue = 0 :=
  ⟨by decide,
   filled_series_invariants resEx ["proj-p"] [aggRowEx] 1000 (by decide)⟩

/-- C4: the value-type deduplication reduces a slot's rows by summation into
one (asset amount, usd value) pair, and the result is the same for every
permutation of the input rows. -/
theorem dedupeReports_perm_invariant (rows rows' : List Report)
    (h : rows.Perm rows') : dedupeReports rows = dedupeReports rows' := by
  unfold dedupeReports
  rw [(h.map Report.valueAsset).sum_eq, (h.map Report.valueUsd).sum_eq]

/-- C4 witness: scenario B — value type CBV usd 30 plus value type EBV usd 20
at one slot give the single pair (5, 50), in either input order. -/
theorem dedupeReports_perm_invariant_witness :
    ([reportCBV, reportEBV].Perm [reportEBV, reportCBV]) ∧
    dedupeReports [reportCBV, reportEBV] =
      dedupeReports [reportEBV, reportCBV] ∧
    dedupeReports [reportCBV, reportEBV] = (5, 50) :=
  ⟨List.Perm.swap reportEBV reportCBV [],
   dedupeReports_perm_invariant _ _ (List.Perm.swap reportEBV reportCBV []),
   by decide⟩

/-- C5: with a latest timestamp present and the dataset unsynced (nonzero
mismatch count), each of the three public operations returns the
`DATA_NOT_FULLY_SYNCED` error when `errorOnUnsyncedDetailedTvl` is true, and
succeeds when it is false (for the per-asset operation, under a known asset
and project, whose validation precedes the sync check). -/
theorem unsynced_flag_gating (status : StatusEnv) (t : Nat)
    (projects : List ReportProject) (tokens : List Token)
    (cfg : ResolutionConfig) (tvlData : TvlData) (assetData : AssetData)
    (bdData : BreakdownData) (projectId : String) (chainId : Nat)
    (assetId : String) (assetType : String)
    (hlt : status.latestTimestamp = some t)
    (hun : status.counts.different ≠ 0)
    (hasset : (tokens.find? fun tk => tk.id == assetId).isSome = true)
    (hproj : (projects.find? fun p => p.projectId == projectId).isSome = true) :
    (getDetailedTvlApiResponse projects ⟨true⟩ cfg status tvlData =
      .error .DATA_NOT_FULLY_SYNCED) ∧
    ((getDetailedAssetTvlApiResponse tokens projects ⟨true⟩ cfg status assetData
        projectId chainId assetId assetType).1 = .error .DATA_NOT_FULLY_SYNCED) ∧
    (getProjectTokenBreakdownApiResponse projects tokens ⟨true⟩ status bdData =
      .error .DATA_NOT_FULLY_SYNCED) ∧
    (∃ d, getDetailedTvlApiResponse projects ⟨false⟩ cfg status tvlData =
      .success d) ∧
    (∃ d, (getDetailedAssetTvlApiResponse tokens projects ⟨false⟩ cfg status
        assetData projectId chainId assetId assetType).1 = .success d) ∧
    (∃ d, getProjectTokenBreakdownApiResponse projects tokens ⟨false⟩ status
      bdData = .success d) := by
  obtain ⟨tok, htok⟩ := Option.isSome_iff_exists.mp hasset
  obtain ⟨proj, hprojSome⟩ := Option.isSome_iff_exists.mp hproj
  have hs : (status.counts.different == 0) = false := by simp [hun]
  refine ⟨?_, ?_, ?_, ?_, ?_, ?_⟩ <;>
    simp [getDetailedTvlApiResponse, getDetailedAssetTvlApiResponse,
      getProjectTokenBreakdownApiResponse, getDataTimings, hlt, hs, htok,
      hprojSome]

/-- C5 witness: the gating evaluated at the concrete unsynced status
(5 matching, 2 different, latest 1000) with a known asset and project. -/
theorem unsynced_flag_gating_witness :
    statusUnsyncedEx.latestTimestamp = some 1000 ∧
    statusUnsyncedEx.counts.different ≠ 0 ∧
    (tokensEx.find? fun tk => tk.id == "tok-a").isSome = true ∧
    (projectsEx.find? fun p => p.projectId == "proj-p").isSome = true ∧
    (getDetailedTvlApiResponse projectsEx ⟨true⟩ cfgEx statusUnsyncedEx
      tvlDataEx = .error .DATA_NOT_FULLY_SYNCED) ∧
    ((getDetailedAssetTvlApiResponse tokensEx projectsEx ⟨true⟩ cfgEx
        statusUnsyncedEx assetDataEx "proj-p" 5 "tok-a" "CBV").1 =
      .error .DATA_NOT_FULLY_SYNCED) ∧
    (getProjectTokenBreakdownApiResponse projectsEx tokensEx ⟨true⟩
      statusUnsyncedEx bdDataEx = .error .DATA_NOT_FULLY_SYNCED) ∧
    (∃ d, getDetailedTvlApiResponse projectsEx ⟨false⟩ cfgEx statusUnsyncedEx
      tvlDataEx = .success d) ∧
    (∃ d, (getDetailedAssetTvlApiResponse tokensEx projectsEx ⟨false⟩ cfgEx
        statusUnsyncedEx assetDataEx "proj-p" 5 "tok-a" "CBV").1 =
      .success d) ∧
    (∃ d, getProjectTokenBreakdownApiResponse projectsEx tokensEx ⟨false⟩
      statusUnsyncedEx bdDataEx = .success d) := by
  have h := unsynced_flag_gating statusUnsyncedEx 1000 projectsEx tokensEx
    cfgEx tvlDataEx assetDataEx bdDataEx "proj-p" 5 "tok-a" "CBV" rfl
    (by decide) (by decide) (by decide)
  exact ⟨rfl, by decide, by decide, by decide, h.1, h.2.1, h.2.2.1,
    h.2.2.2.1, h.2.2.2.2.1, h.2.2.2.2.2⟩

/-- C6: when the requested asset is not in the token list or the requested
project is not in the project list, the per-asset operation returns the
`INVALID_PROJECT_OR_ASSET` error having issued zero storage-collaborator
queries. -/
theorem invalid_project_or_asset_no_queries (tokens : List Token)
    (projects : List ReportProject) (options : DetailedTvlControllerOptions)
    (cfg : ResolutionConfig) (status : StatusEnv) (env : AssetData)
    (projectId : String) (chainId : Nat) (assetId : String) (assetType : String)
    (h : (tokens.find? fun tk => tk.id == assetId) = none ∨
      (projects.find? fun p => p.projectId == projectId) = none) :
    getDetailedAssetTvlApiResponse tokens projects options cfg status env
      projectId chainId assetId assetType =
      (.error .INVALID_PROJECT_OR_ASSET, 0) := by
  rcases h with h | h
  · cases hp : projects.find? fun p => p.projectId == projectId <;>
      simp [getDetailedAssetTvlApiResponse, h, hp]
  · cases ha : tokens.find? fun tk => tk.id == assetId <;>
      simp [getDetailedAssetTvlApiResponse, h, ha]

/-- C6 witness: scenario D — an asset id absent from the token list yields
the invalid error with zero storage queries issued. -/
theorem invalid_project_or_asset_no_queries_witness :
    (([] : List Token).find? fun tk => tk.id == "missing") = none ∧
    getDetailedAssetTvlApiResponse [] projectsEx ⟨true⟩ cfgEx statusUnsyncedEx
      assetDataEx "proj-p" 5 "missing" "CBV" =
      (.error .INVALID_PROJECT_OR_ASSET, 0) :=
  ⟨rfl, invalid_project_or_asset_no_queries [] projectsEx ⟨true⟩ cfgEx
    statusUnsyncedEx assetDataEx "proj-p" 5 "missing" "CBV" (Or.inl rfl)⟩

/-- C7: the merged breakdown has exactly one entry per input project (in
order), invents no project, and each project's entry carries its category
entries — the looked-up list when the project is present in a category,
the empty list (never a missing key) when it is absent. -/
theorem groupAndMergeBreakdowns_covers_projects (projects : List ReportProject)
    (sources : BreakdownSources) :
    ((groupAndMergeBreakdowns projects sources).map Prod.fst =
      projects.map ReportProject.projectId) ∧
    (∀ pb ∈ groupAndMergeBreakdowns projects sources,
      ∃ p ∈ projects, pb.1 = p.projectId) ∧
    (∀ p ∈ projects, ∃ pb ∈ groupAndMergeBreakdowns projects sources,
      pb.1 = p.projectId ∧
      ((sources.external.find? fun kv => kv.1 == p.projectId) = none →
        pb.2.external = []) ∧
      ((sources.native.find? fun kv => kv.1 == p.projectId) = none →
        pb.2.native = []) ∧
      ((sources.canonical.find? fun kv => kv.1 == p.projectId) = none →
        pb.2.canonical = []) ∧
      (∀ kv, (sources.external.find? fun kv2 => kv2.1 == p.projectId) = some kv →
        pb.2.external = kv.2) ∧
      (∀ kv, (sources.native.find? fun kv2 => kv2.1 == p.projectId) = some kv →
        pb.2.native = kv.2) ∧
      (∀ kv, (sources.canonical.find? fun kv2 => kv2.1 == p.projectId) = some kv →
        pb.2.canonical = kv.2)) := by
  refine ⟨?_, ?_, ?_⟩
  · simp [groupAndMergeBreakdowns, List.map_map, Function.comp_def]
  · intro pb hpb
    obtain ⟨p, hp, rfl⟩ := List.mem_map.mp hpb
    exact ⟨p, hp, rfl⟩
  · intro p hp
    refine ⟨_, List.mem_map_of_mem _ hp, rfl, ?_, ?_, ?_, ?_, ?_, ?_⟩
    · intro h
      simp [lookupBreakdown, h]
    · intro h
      simp [lookupBreakdown, h]
    · intro h
      simp [lookupBreakdown, h]
    · intro kv h
      simp [lookupBreakdown, h]
    · intro kv h
      simp [lookupBreakdown, h]
    · intro kv h
      simp [lookupBreakdown, h]

/-- C7 witness: scenario E — a project present only in the native source gets
exactly one entry, with empty canonical and external lists and the non-empty
native list. -/
theorem groupAndMergeBreakdowns_covers_projects_witness :
    ((groupAndMergeBreakdowns projectsEx srcsEx).map Prod.fst = ["proj-p"]) ∧
    groupAndMergeBreakdowns projectsEx srcsEx =
      [("proj-p",
        { external := []
          native := [{ assetId := "tok-a", amount := 1, usdValue := 10 }]
          canonical := [] })] :=
  ⟨(groupAndMergeBreakdowns_covers_projects projectsEx srcsEx).1, by decide⟩

/-- Every entry of the generated detailed TVL response carries one of the
requested project ids. -/
theorem mem_generate_imp
    (groupedHourlyReports groupedSixHourlyReports groupedDailyReports :
      List (String × List SeriesEntry))
    (groupedLatestReports : List (String × List (String × List Report)))
    (projectIds : List String) :
    ∀ e ∈ generateDetailedTvlApiResponse groupedHourlyReports
        groupedSixHourlyReports groupedDailyReports groupedLatestReports
        projectIds, e.1 ∈ projectIds := by
  intro e he
  obtain ⟨pid, hpid, rfl⟩ := List.mem_map.mp he
  exact hpid

/-- C8: the generator never emits a project absent from its `projectIds`
argument, whatever rows the grouped inputs reference; consequently a
successful detailed TVL operation only contains configured project ids, even
though the fill step additionally seeks the synthetic ids ALL, BRIDGES and
LAYER2S. -/
theorem generate_response_respects_projectIds
    (groupedHourlyReports groupedSixHourlyReports groupedDailyReports :
      List (String × List SeriesEntry))
    (groupedLatestReports : List (String × List (String × List Report)))
    (projectIds : List String) :
    (∀ e ∈ generateDetailedTvlApiResponse groupedHourlyReports
        groupedSixHourlyReports groupedDailyReports groupedLatestReports
        projectIds, e.1 ∈ projectIds) ∧
    (∀ (projects : List ReportProject),
      allProjectIdsToSeekFor projects =
        projects.map ReportProject.projectId ++
          [ProjectId.ALL, ProjectId.BRIDGES, ProjectId.LAYER2S]) ∧
    (∀ (projects : List ReportProject)
        (options : DetailedTvlControllerOptions) (cfg : ResolutionConfig)
        (status : StatusEnv) (env : TvlData)
        (d : List (String × ProjectCharts)),
      getDetailedTvlApiResponse projects options cfg status env = .success d →
      ∀ e ∈ d, e.1 ∈ projects.map ReportProject.projectId) := by
  refine ⟨mem_generate_imp _ _ _ _ _, fun projects => rfl, ?_⟩
  intro projects options cfg status env d hd e he
  simp only [getDetailedTvlApiResponse, getDataTimings] at hd
  cases hlt : status.latestTimestamp with
  | none =>
    rw [hlt] at hd
    simp at hd
  | some t =>
    rw [hlt] at hd
    by_cases hif :
        (!(status.counts.different == 0) &&
          options.errorOnUnsyncedDetailedTvl) = true
    · simp [hif] at hd
    · rw [Bool.not_eq_true] at hif
      simp only [hif, Bool.false_eq_true, if_false, ApiResult.success.injEq] at hd
      subst hd
      exact mem_generate_imp _ _ _ _ _ e he

/-- C8 witness: the first conjunct instantiated at empty grouped inputs and a
single requested project id. -/
theorem generate_response_respects_projectIds_witness :
    ∀ e ∈ generateDetailedTvlApiResponse [] [] [] [] ["proj-p"],
      e.1 ∈ ["proj-p"] :=
  (generate_response_respects_projectIds [] [] [] [] ["proj-p"]).1

/-- C9: in all three public operations the NO_DATA check precedes the sync
check — with no latest timestamp the result is the `NO_DATA` error for every
sync state and option value (for the per-asset operation, under a known asset
and project, whose validation comes first) — and `DATA_NOT_FULLY_SYNCED` is
only ever returned when a latest timestamp exists. -/
theorem no_data_precedes_sync_check (projects : List ReportProject)
    (tokens : List Token) (options : DetailedTvlControllerOptions)
    (cfg : ResolutionConfig) (status : StatusEnv) (tvlData : TvlData)
    (assetData : AssetData) (bdData : BreakdownData) (projectId : String)
    (chainId : Nat) (assetId : String) (assetType : String)
    (hlt : status.latestTimestamp = none)
    (hasset : (tokens.find? fun tk => tk.id == assetId).isSome = true)
    (hproj : (projects.find? fun p => p.projectId == projectId).isSome = true) :
    (getDetailedTvlApiResponse projects options cfg status tvlData =
      .error .NO_DATA) ∧
    ((getDetailedAssetTvlApiResponse tokens projects options cfg status
        assetData projectId chainId assetId assetType).1 = .error .NO_DATA) ∧
    (getProjectTokenBreakdownApiResponse projects tokens options status bdData =
      .error .NO_DATA) ∧
    (∀ (status' : StatusEnv),
      getDetailedTvlApiResponse projects options cfg status' tvlData =
        .error .DATA_NOT_FULLY_SYNCED → status'.latestTimestamp ≠ none) ∧
    (∀ (status' : StatusEnv) (tokens' : List Token)
        (projects' : List ReportProject),
      (getDetailedAssetTvlApiResponse tokens' projects' options cfg status'
          assetData projectId chainId assetId assetType).1 =
        .error .DATA_NOT_FULLY_SYNCED → status'.latestTimestamp ≠ none) ∧
    (∀ (status' : StatusEnv),
      getProjectTokenBreakdownApiResponse projects tokens options status'
        bdData = .error .DATA_NOT_FULLY_SYNCED →
        status'.latestTimestamp ≠ none) := by
  obtain ⟨tok, htok⟩ := Option.isSome_iff_exists.mp hasset
  obtain ⟨proj, hprojSome⟩ := Option.isSome_iff_exists.mp hproj
  refine ⟨?_, ?_, ?_, ?_, ?_, ?_⟩
  · simp [getDetailedTvlApiResponse, getDataTimings, hlt]
  · simp [getDetailedAssetTvlApiResponse, getDataTimings, hlt, htok, hprojSome]
  · simp [getProjectTokenBreakdownApiResponse, getDataTimings, hlt]
  · intro s hDNFS hn
    simp [getDetailedTvlApiResponse, getDataTimings, hn] at hDNFS
  · intro s tks prjs hDNFS hn
    cases ha : tks.find? fun tk => tk.id == assetId <;>
      cases hp : prjs.find? fun p => p.projectId == projectId <;>
        simp [getDetailedAssetTvlApiResponse, getDataTimings, ha, hp, hn]
          at hDNFS
  · intro s hDNFS hn
    simp [getProjectTokenBreakdownApiResponse, getDataTimings, hn] at hDNFS

/-- C9 witness: the precedence evaluated at the concrete empty status (no
aggregated row at all) with a known asset and project. -/
theorem no_data_precedes_sync_check_witness :
    statusNoDataEx.latestTimestamp = none ∧
    (tokensEx.find? fun tk => tk.id == "tok-a").isSome = true ∧
    (projectsEx.find? fun p => p.projectId == "proj-p").isSome = true ∧
    (getDetailedTvlApiResponse projectsEx ⟨true⟩ cfgEx statusNoDataEx
      tvlDataEx = .error .NO_DATA) ∧
    ((getDetailedAssetTvlApiResponse tokensEx projectsEx ⟨true⟩ cfgEx
        statusNoDataEx assetDataEx "proj-p" 5 "tok-a" "CBV").1 =
      .error .NO_DATA) ∧
    (getProjectTokenBreakdownApiResponse projectsEx tokensEx ⟨true⟩
      statusNoDataEx bdDataEx = .error .NO_DATA) := by
  have h := no_data_precedes_sync_check projectsEx tokensEx ⟨true⟩ cfgEx
    statusNoDataEx tvlDataEx assetDataEx bdDataEx "proj-p" 5 "tok-a" "CBV"
    rfl (by decide) (by decide)
  exact ⟨rfl, by decide, by decide, h.1, h.2.1, h.2.2.1⟩

/-- C10: the per-asset operation validates only the asset id and the project
id; with a known asset and project the validation outcome is the same for
every chain id and every report type — the invalid error is never returned
and the operation always proceeds to issue storage queries (at least the two
status queries). -/
theorem asset_op_ignores_chain_and_type (tokens : List Token)
    (projects : List ReportProject) (options : DetailedTvlControllerOptions)
    (cfg : ResolutionConfig) (status : StatusEnv) (env : AssetData)
    (projectId : String) (assetId : String) (tok : Token)
    (proj : ReportProject)
    (htok : (tokens.find? fun tk => tk.id == assetId) = some tok)
    (hproj : (projects.find? fun p => p.projectId == projectId) = some proj) :
    ∀ (chainId : Nat) (assetType : String),
      ((getDetailedAssetTvlApiResponse tokens projects options cfg status env
          projectId chainId assetId assetType).1 ≠
        .error .INVALID_PROJECT_OR_ASSET) ∧
      2 ≤ (getDetailedAssetTvlApiResponse tokens projects options cfg status
          env projectId chainId assetId assetType).2 := by
  intro chainId assetType
  cases hlt : status.latestTimestamp with
  | none =>
    constructor <;>
      simp [getDetailedAssetTvlApiResponse, getDataTimings, htok, hproj, hlt]
  | some t =>
    by_cases hif :
        (!(status.counts.different == 0) &&
          options.errorOnUnsyncedDetailedTvl) = true
    · constructor <;>
        simp [getDetailedAssetTvlApiResponse, getDataTimings, htok, hproj,
          hlt, hif]
    · rw [Bool.not_eq_true] at hif
      constructor <;>
        simp [getDetailedAssetTvlApiResponse, getDataTimings, htok, hproj,
          hlt, hif]

/-- C10 witness: a known asset and project at an arbitrary chain id (5) and
report type (NMV) — no invalid error, and at least the two status queries are
issued. -/
theorem asset_op_ignores_chain_and_type_witness :
    ((tokensEx.find? fun tk => tk.id == "tok-a") =
      some { id := "tok-a", symbol := "ABC", decimals := 18 }) ∧
    ((projectsEx.find? fun p => p.projectId == "proj-p") =
      some { projectId := "proj-p" }) ∧
    ((getDetailedAssetTvlApiResponse tokensEx projectsEx ⟨true⟩ cfgEx
        statusUnsyncedEx assetDataEx "proj-p" 5 "tok-a" "NMV").1 ≠
      .error .INVALID_PROJECT_OR_ASSET) ∧
    2 ≤ (getDetailedAssetTvlApiResponse tokensEx projectsEx ⟨true⟩ cfgEx
        statusUnsyncedEx assetDataEx "proj-p" 5 "tok-a" "NMV").2 := by
  have h := asset_op_ignores_chain_and_type tokensEx projectsEx ⟨true⟩ cfgEx
    statusUnsyncedEx assetDataEx "proj-p" "tok-a"
    { id := "tok-a", symbol := "ABC", decimals := 18 }
    { projectId := "proj-p" } (by decide) (by decide) 5 "NMV"
  exact ⟨by decide, by decide, h.1, h.2⟩
